import Mathlib

/-!
Verification of the AC monitoring dashboard script (`src/script.js`).

The script defines a class `ACMonitorApp` holding a boolean connection flag
`isConnected` (initially `false`), cached handles to four named DOM elements
(`indicatorBtn`, `indicatorIcon`, `indicatorText`, `pulseRing`) and the
collection of `.sensor-val` elements.  `updateUI` writes the presentation for
the current flag to those handles; `handleIndicatorClick` flips the flag and
calls `updateUI`; the startup method runs `updateUI` immediately when the
document is already loaded and otherwise defers one `updateUI` call to a
`DOMContentLoaded` listener.

The embedding models each cached single-element handle as `Option String`
holding the one mutable property the script writes to it (`className` for
`indicatorBtn` and `pulseRing`, `innerText` for `indicatorIcon` and
`indicatorText`); `none` means `document.getElementById` found no element, in
which case a JavaScript property assignment on `null` throws a `TypeError`.
`updateUI` therefore returns the partially mutated DOM together with
`Option JsError`: mutations performed before a throw stay applied, mutations
after it are skipped, mirroring JavaScript evaluation order.
-/

namespace ACMonitor

/-- The only failure mode of the script: a property assignment on `null`
(a missing DOM element) throws a `TypeError`. -/
inductive JsError : Type
  | typeError
deriving DecidableEq, Repr

/-- One `.sensor-val` element: its static `data-val` attribute (`none` when
the attribute is absent, in which case `getAttribute` returns `null`) and its
mutable displayed `innerText`. -/
structure SensorEl : Type where
  dataVal : Option String
  innerText : String
deriving DecidableEq, Repr

/-- The DOM surfaces the script binds at construction.  Each single-element
handle is `some` of its mutable property value when the element exists and
`none` when the `getElementById` lookup returned `null`.  `sensorValues` is
the (possibly empty) `querySelectorAll('.sensor-val')` result. -/
structure Dom : Type where
  indicatorBtn : Option String
  indicatorIcon : Option String
  indicatorText : Option String
  pulseRing : Option String
  sensorValues : List SensorEl
deriving DecidableEq, Repr

/-- The `className` assigned to `indicatorBtn` in the connected branch of
`updateUI` (src/script.js line 63). -/
def connectedBtnClassName : String :=
  "group relative flex items-center gap-1 sm:gap-1.5 rounded-full px-2.5 sm:px-3 py-1 transition-all duration-300 ease-out hover:scale-105 active:scale-95 shadow-lg bg-gradient-to-r from-emerald-500 to-emerald-400 shadow-emerald-900/40 ring-1 ring-white/10"

/-- The `className` assigned to `indicatorBtn` in the disconnected branch of
`updateUI` (src/script.js line 82). -/
def disconnectedBtnClassName : String :=
  "group relative flex items-center gap-1 sm:gap-1.5 rounded-full px-2.5 sm:px-3 py-1 transition-all duration-300 ease-out hover:scale-105 active:scale-95 shadow-lg bg-gradient-to-r from-rose-600 to-red-500 shadow-rose-900/40 ring-1 ring-white/10"

/-- The `pulseRing` class in the connected branch: the ring is hidden
(src/script.js line 70). -/
def pulseHiddenClassName : String := "hidden"

/-- The `pulseRing` class in the disconnected branch: the ring is visible and
animated (src/script.js line 89). -/
def pulseVisibleClassName : String :=
  "absolute -inset-1 -z-10 rounded-full bg-red-500 opacity-20 animate-ping"

/-- The value stored by `el.innerText = el.getAttribute('data-val')`.
`getAttribute` yields the attribute string, or `null` when the attribute is
absent; the `innerText` setter is declared `[LegacyNullToEmptyString]` in the
HTML standard, so assigning `null` stores the empty string. -/
def innerTextOfAttr : Option String → String
  | some v => v
  | none => ""

/-- Connected-branch sensor update (src/script.js lines 73-76): display the
`data-val` attribute. -/
def setSensorOnline (el : SensorEl) : SensorEl :=
  { el with innerText := innerTextOfAttr el.dataVal }

/-- Disconnected-branch sensor update (src/script.js lines 92-94): reset the
display to `"0"`. -/
def setSensorOffline (el : SensorEl) : SensorEl :=
  { el with innerText := "0" }

/-- `updateUI` (src/script.js lines 58-96).  Mutations happen in source
order: button class, icon text, label text, pulse class, then the sensor
loop; assigning a property of a missing (`null`) element throws a
`TypeError`, keeping the mutations already performed and skipping the rest.
The result is the DOM as left behind plus the error, if one was thrown. -/
def updateUI (isConnected : Bool) (d : Dom) : Dom × Option JsError :=
  if isConnected then
    match d.indicatorBtn with
    | none => (d, some JsError.typeError)
    | some _ =>
      match d.indicatorIcon with
      | none =>
        ({ d with indicatorBtn := some connectedBtnClassName }, some JsError.typeError)
      | some _ =>
        match d.indicatorText with
        | none =>
          ({ d with indicatorBtn := some connectedBtnClassName,
                    indicatorIcon := some "wifi" }, some JsError.typeError)
        | some _ =>
          match d.pulseRing with
          | none =>
            ({ d with indicatorBtn := some connectedBtnClassName,
                      indicatorIcon := some "wifi",
                      indicatorText := some "Online" }, some JsError.typeError)
          | some _ =>
            ({ d with indicatorBtn := some connectedBtnClassName,
                      indicatorIcon := some "wifi",
                      indicatorText := some "Online",
                      pulseRing := some pulseHiddenClassName,
                      sensorValues := d.sensorValues.map setSensorOnline }, none)
  else
    match d.indicatorBtn with
    | none => (d, some JsError.typeError)
    | some _ =>
      match d.indicatorIcon with
      | none =>
        ({ d with indicatorBtn := some disconnectedBtnClassName }, some JsError.typeError)
      | some _ =>
        match d.indicatorText with
        | none =>
          ({ d with indicatorBtn := some disconnectedBtnClassName,
                    indicatorIcon := some "wifi_off" }, some JsError.typeError)
        | some _ =>
          match d.pulseRing with
          | none =>
            ({ d with indicatorBtn := some disconnectedBtnClassName,
                      indicatorIcon := some "wifi_off",
                      indicatorText := some "Offline" }, some JsError.typeError)
          | some _ =>
            ({ d with indicatorBtn := some disconnectedBtnClassName,
                      indicatorIcon := some "wifi_off",
                      indicatorText := some "Offline",
                      pulseRing := some pulseVisibleClassName,
                      sensorValues := d.sensorValues.map setSensorOffline }, none)

/-- The `ACMonitorApp` instance: the connection flag, the cached DOM handles,
whether the click listener was attached, whether a deferred `updateUI` call
is pending on `DOMContentLoaded`, and a ghost counter of `updateUI` calls
(used to state "exactly one render" properties). -/
structure App : Type where
  isConnected : Bool
  dom : Dom
  listenerAttached : Bool
  pendingRender : Bool
  renderCount : Nat
deriving DecidableEq, Repr

/-- Run `this.updateUI()` on the app: apply `updateUI` to the cached DOM and
bump the ghost render counter; the thrown error, if any, propagates to the
caller. -/
def runRender (a : App) : App × Option JsError :=
  let r := updateUI a.isConnected a.dom
  ({ a with dom := r.1, renderCount := a.renderCount + 1 }, r.2)

/-- `setupEventListeners` (src/script.js lines 33-37): attach the click
listener only when `indicatorBtn` was found. -/
def setupEventListeners (a : App) : App :=
  { a with listenerAttached := a.dom.indicatorBtn.isSome }

/-- The startup method named `initialize` in src/script.js lines 43-50:
when `document.readyState` is `'loading'` it registers one deferred
`updateUI` call on `DOMContentLoaded`, otherwise it runs `updateUI`
synchronously. -/
def initApp (loading : Bool) (a : App) : App × Option JsError :=
  if loading then ({ a with pendingRender := true }, none)
  else runRender a

/-- The constructor (src/script.js lines 10-27) as run by
`new ACMonitorApp()`: `isConnected := false`, cache the DOM handles `d`,
attach the listener, then start up.  `loading` is the external
`document.readyState === 'loading'` condition. -/
def construct (loading : Bool) (d : Dom) : App × Option JsError :=
  initApp loading
    (setupEventListeners
      { isConnected := false, dom := d, listenerAttached := false,
        pendingRender := false, renderCount := 0 })

/-- `handleIndicatorClick` (src/script.js lines 103-109): flip the flag,
then render. -/
def handleIndicatorClick (a : App) : App × Option JsError :=
  runRender { a with isConnected := !a.isConnected }

/-- The one-shot `DOMContentLoaded` notification: it fires at most once per
page, running the deferred `updateUI` call if one was registered. -/
def fireDomContentLoaded (a : App) : App × Option JsError :=
  if a.pendingRender then runRender { a with pendingRender := false }
  else (a, none)

/-- The app state visible immediately after construction and the first
render: when the document was still loading the first render happens at the
`DOMContentLoaded` notification, otherwise it already ran inside the
constructor. -/
def constructAndFirstRender (loading : Bool) (d : Dom) : App :=
  if loading then (fireDomContentLoaded (construct loading d).1).1
  else (construct loading d).1

/-- External events driving the app after construction: a click on the
indicator, a direct `updateUI` call, and the `DOMContentLoaded`
notification. -/
inductive Op : Type
  | toggle
  | render
  | fireDCL
deriving DecidableEq, Repr

/-- Apply one event to the app state (errors thrown out of a handler do not
stop the event loop). -/
def applyOp (a : App) : Op → App
  | Op.toggle => (handleIndicatorClick a).1
  | Op.render => (runRender a).1
  | Op.fireDCL => (fireDomContentLoaded a).1

/-- Run a sequence of events. -/
def runOps (a : App) (ops : List Op) : App :=
  ops.foldl applyOp a

/-- A DOM with every surface present and one sensor element with
`data-val="23.5"` and stale text, used to instantiate universally
quantified theorems. -/
def okDom : Dom :=
  { indicatorBtn := some "btn", indicatorIcon := some "icon",
    indicatorText := some "label", pulseRing := some "ring",
    sensorValues := [{ dataVal := some "23.5", innerText := "stale" }] }

/-- `okDom` wrapped in an app state. -/
def okApp : App :=
  { isConnected := false, dom := okDom, listenerAttached := true,
    pendingRender := false, renderCount := 1 }

/-- A DOM in which only the `pulseRing` lookup returned nothing. -/
def pulseMissingDom : Dom :=
  { indicatorBtn := some "btn", indicatorIcon := some "icon",
    indicatorText := some "label", pulseRing := none,
    sensorValues := [{ dataVal := some "23.5", innerText := "stale" }] }

/-- A DOM with every surface present whose single sensor element carries no
`data-val` attribute. -/
def missingAttrDom : Dom :=
  { indicatorBtn := some "btn", indicatorIcon := some "icon",
    indicatorText := some "label", pulseRing := some "ring",
    sensorValues := [{ dataVal := none, innerText := "prev" }] }

end ACMonitor

namespace ACMonitor

@[simp] lemma setSensorOnline_dataVal (el : SensorEl) :
    (setSensorOnline el).dataVal = el.dataVal := rfl

@[simp] lemma setSensorOffline_dataVal (el : SensorEl) :
    (setSensorOffline el).dataVal = el.dataVal := rfl

@[simp] lemma setSensorOnline_setSensorOnline (el : SensorEl) :
    setSensorOnline (setSensorOnline el) = setSensorOnline el := rfl

@[simp] lemma setSensorOffline_setSensorOffline (el : SensorEl) :
    setSensorOffline (setSensorOffline el) = setSensorOffline el := rfl

@[simp] lemma setSensorOnline_setSensorOffline (el : SensorEl) :
    setSensorOnline (setSensorOffline el) = setSensorOnline el := rfl

@[simp] lemma setSensorOffline_setSensorOnline (el : SensorEl) :
    setSensorOffline (setSensorOnline el) = setSensorOffline el := rfl

/-- Rendering twice is the same as rendering once with the second flag: the
second `updateUI` call overwrites everything the first one wrote, and the
`data-val` attributes it reads are untouched by the first call. -/
lemma updateUI_updateUI (b bp : Bool) (d : Dom) :
    updateUI b (updateUI bp d).1 = updateUI b d := by
  rcases d with ⟨btn, icon, txt, pulse, sens⟩
  cases bp <;> cases b <;>
    cases btn <;> cases icon <;> cases txt <;> cases pulse <;>
      simp [updateUI, List.map_map, Function.comp]

/-- `updateUI` never changes a sensor element's static `data-val`
attribute. -/
lemma updateUI_dataVals (b : Bool) (d : Dom) :
    ((updateUI b d).1).sensorValues.map SensorEl.dataVal
      = d.sensorValues.map SensorEl.dataVal := by
  rcases d with ⟨btn, icon, txt, pulse, sens⟩
  cases b <;> cases btn <;> cases icon <;> cases txt <;> cases pulse <;>
    simp [updateUI, List.map_map, Function.comp]

/-- `updateUI` completes without throwing exactly when the four
single-element surfaces are all present. -/
lemma updateUI_err_none_iff (b : Bool) (d : Dom) :
    (updateUI b d).2 = none ↔
      (d.indicatorBtn.isSome ∧ d.indicatorIcon.isSome ∧
       d.indicatorText.isSome ∧ d.pulseRing.isSome) := by
  rcases d with ⟨btn, icon, txt, pulse, sens⟩
  cases b <;> cases btn <;> cases icon <;> cases txt <;> cases pulse <;>
    simp [updateUI]

/-- When every sensor element carries a `data-val` attribute, the
connected-branch sensor update makes each displayed text equal to that
attribute. -/
lemma map_online_displayed (sens : List SensorEl)
    (hs : ∀ el ∈ sens, el.dataVal.isSome) :
    (sens.map setSensorOnline).map (fun el => some el.innerText)
      = sens.map (fun el => el.dataVal) := by
  induction sens with
  | nil => rfl
  | cons el t ih =>
    obtain ⟨v, hv⟩ := Option.isSome_iff_exists.mp (hs el (List.mem_cons_self el t))
    have ht := ih (fun x hx => hs x (List.mem_cons_of_mem el hx))
    simp [setSensorOnline, innerTextOfAttr, hv, ht]

lemma succ_mod_two_beq (n : Nat) : ((n + 1) % 2 == 1) = !(n % 2 == 1) := by
  rcases Nat.mod_two_eq_zero_or_one n with h | h <;> simp [Nat.add_mod, h]

lemma runOps_cons (a : App) (op : Op) (t : List Op) :
    runOps a (op :: t) = runOps (applyOp a op) t := rfl

lemma applyOp_toggle_isConnected (a : App) :
    (applyOp a Op.toggle).isConnected = !a.isConnected := by
  simp [applyOp, handleIndicatorClick, runRender]

lemma applyOp_render_isConnected (a : App) :
    (applyOp a Op.render).isConnected = a.isConnected := by
  simp [applyOp, runRender]

lemma applyOp_fire_isConnected (a : App) :
    (applyOp a Op.fireDCL).isConnected = a.isConnected := by
  show (fireDomContentLoaded a).1.isConnected = a.isConnected
  unfold fireDomContentLoaded
  split <;> simp [runRender]

lemma applyOp_dataVals (a : App) (op : Op) :
    (applyOp a op).dom.sensorValues.map SensorEl.dataVal
      = a.dom.sensorValues.map SensorEl.dataVal := by
  cases op with
  | toggle => simp [applyOp, handleIndicatorClick, runRender, updateUI_dataVals]
  | render => simp [applyOp, runRender, updateUI_dataVals]
  | fireDCL =>
    show ((fireDomContentLoaded a).1).dom.sensorValues.map SensorEl.dataVal
      = a.dom.sensorValues.map SensorEl.dataVal
    unfold fireDomContentLoaded
    split <;> simp [runRender, updateUI_dataVals]

/-- Only clicks change the flag: after any event sequence the flag is the
initial flag xor-ed with the parity of the number of clicks. -/
lemma runOps_isConnected (ops : List Op) : ∀ a : App,
    (runOps a ops).isConnected = xor a.isConnected (ops.count Op.toggle % 2 == 1) := by
  induction ops with
  | nil => intro a; simp [runOps]
  | cons op t ih =>
    intro a
    rw [runOps_cons, ih (applyOp a op)]
    cases op with
    | toggle =>
      rw [applyOp_toggle_isConnected]
      have hc : (Op.toggle :: t).count Op.toggle = t.count Op.toggle + 1 := by
        simp [List.count_cons]
      rw [hc, succ_mod_two_beq]
      cases a.isConnected <;> simp [Bool.not_xor, Bool.xor_not]
    | render =>
      rw [applyOp_render_isConnected]
      simp [List.count_cons]
    | fireDCL =>
      rw [applyOp_fire_isConnected]
      simp [List.count_cons]

/-- No event changes a sensor element's static `data-val` attribute. -/
lemma runOps_dataVals (ops : List Op) : ∀ a : App,
    (runOps a ops).dom.sensorValues.map SensorEl.dataVal
      = a.dom.sensorValues.map SensorEl.dataVal := by
  induction ops with
  | nil => intro a; simp [runOps]
  | cons op t ih =>
    intro a
    rw [runOps_cons, ih (applyOp a op), applyOp_dataVals]

lemma construct_isConnected (loading : Bool) (d : Dom) :
    (construct loading d).1.isConnected = false := by
  cases loading <;> simp [construct, initApp, setupEventListeners, runRender]

lemma construct_dataVals (loading : Bool) (d : Dom) :
    (construct loading d).1.dom.sensorValues.map SensorEl.dataVal
      = d.sensorValues.map SensorEl.dataVal := by
  cases loading <;>
    simp [construct, initApp, setupEventListeners, runRender, updateUI_dataVals]

/-- The disconnected-branch sensor loop makes every displayed text `"0"`. -/
lemma offline_innerText (sens : List SensorEl) :
    ∀ el ∈ sens.map setSensorOffline, el.innerText = "0" := by
  intro el hel
  obtain ⟨x, hx, rfl⟩ := List.mem_map.mp hel
  rfl

/-- Claim C1: for every connection state, with the four single-element
surfaces present and every sensor element carrying a `data-val` attribute,
`updateUI` completes without error and produces exactly the presentation
mapped from that state: Connected shows each element's `data-val` as its
text, the label `"Online"`, the online glyph `"wifi"`, and the hidden pulse
ring; Disconnected shows `"0"` on every sensor display, the label
`"Offline"`, the offline glyph `"wifi_off"`, and the visible animated pulse
ring. -/
theorem C1_state_presentation (b : Bool) (d : Dom)
    (hb : d.indicatorBtn.isSome) (hi : d.indicatorIcon.isSome)
    (ht : d.indicatorText.isSome) (hp : d.pulseRing.isSome)
    (hs : ∀ el ∈ d.sensorValues, el.dataVal.isSome) :
    (updateUI b d).2 = none ∧
    (b = true →
      (updateUI b d).1.indicatorText = some "Online" ∧
      (updateUI b d).1.indicatorIcon = some "wifi" ∧
      (updateUI b d).1.pulseRing = some pulseHiddenClassName ∧
      (updateUI b d).1.sensorValues.map (fun el => some el.innerText)
        = d.sensorValues.map (fun el => el.dataVal)) ∧
    (b = false →
      (updateUI b d).1.indicatorText = some "Offline" ∧
      (updateUI b d).1.indicatorIcon = some "wifi_off" ∧
      (updateUI b d).1.pulseRing = some pulseVisibleClassName ∧
      ∀ el ∈ (updateUI b d).1.sensorValues, el.innerText = "0") := by
  rcases d with ⟨btn, icon, txt, pulse, sens⟩
  cases btn with
  | none => exact absurd hb (by simp)
  | some v1 =>
  cases icon with
  | none => exact absurd hi (by simp)
  | some v2 =>
  cases txt with
  | none => exact absurd ht (by simp)
  | some v3 =>
  cases pulse with
  | none => exact absurd hp (by simp)
  | some v4 =>
  cases b with
  | false =>
    refine ⟨rfl, by simp, fun _ => ⟨rfl, rfl, rfl, ?_⟩⟩
    exact offline_innerText sens
  | true =>
    refine ⟨rfl, fun _ => ⟨rfl, rfl, rfl, ?_⟩, by simp⟩
    exact map_online_displayed sens hs

/-- Witness for C1: the connected render on `okDom`. -/
theorem C1_state_presentation_witness :
    okDom.indicatorBtn.isSome ∧ okDom.indicatorIcon.isSome ∧
    okDom.indicatorText.isSome ∧ okDom.pulseRing.isSome ∧
    (∀ el ∈ okDom.sensorValues, el.dataVal.isSome) ∧
    ((updateUI true okDom).2 = none ∧
     (true = true →
       (updateUI true okDom).1.indicatorText = some "Online" ∧
       (updateUI true okDom).1.indicatorIcon = some "wifi" ∧
       (updateUI true okDom).1.pulseRing = some pulseHiddenClassName ∧
       (updateUI true okDom).1.sensorValues.map (fun el => some el.innerText)
         = okDom.sensorValues.map (fun el => el.dataVal)) ∧
     (true = false →
       (updateUI true okDom).1.indicatorText = some "Offline" ∧
       (updateUI true okDom).1.indicatorIcon = some "wifi_off" ∧
       (updateUI true okDom).1.pulseRing = some pulseVisibleClassName ∧
       ∀ el ∈ (updateUI true okDom).1.sensorValues, el.innerText = "0")) :=
  ⟨by decide, by decide, by decide, by decide, by decide,
   C1_state_presentation true okDom (by decide) (by decide) (by decide) (by decide)
     (by decide)⟩

/-- Counterexample to claim C2 as stated: with only the pulse surface
absent, `updateUI` throws a `TypeError` that propagates out of the render
call, and the sensor display keeps its stale text instead of being
updated. -/
theorem C2_cex_missing_pulse_throws :
    (updateUI false pulseMissingDom).2 = some JsError.typeError ∧
    (updateUI false pulseMissingDom).1.sensorValues.map (fun el => el.innerText)
      = ["stale"] := by
  constructor <;> rfl

/-- Claim C2 amended: when only the pulse surface is absent, `updateUI`
still updates the button style, the icon, and the label — the mutations
that precede the pulse assignment in source order — but then throws a
`TypeError` that propagates out of the render call, and the sensor-display
updates after the throw are skipped. -/
theorem C2_missing_pulse_partial_render (b : Bool) (d : Dom)
    (hb : d.indicatorBtn.isSome) (hi : d.indicatorIcon.isSome)
    (ht : d.indicatorText.isSome) (hp : d.pulseRing = none) :
    (updateUI b d).2 = some JsError.typeError ∧
    (updateUI b d).1.indicatorBtn
      = some (if b then connectedBtnClassName else disconnectedBtnClassName) ∧
    (updateUI b d).1.indicatorIcon = some (if b then "wifi" else "wifi_off") ∧
    (updateUI b d).1.indicatorText = some (if b then "Online" else "Offline") ∧
    (updateUI b d).1.pulseRing = none ∧
    (updateUI b d).1.sensorValues = d.sensorValues := by
  rcases d with ⟨btn, icon, txt, pulse, sens⟩
  cases btn with
  | none => exact absurd hb (by simp)
  | some v1 =>
  cases icon with
  | none => exact absurd hi (by simp)
  | some v2 =>
  cases txt with
  | none => exact absurd ht (by simp)
  | some v3 =>
  cases pulse with
  | some v4 => simp at hp
  | none =>
  cases b with
  | false => exact ⟨rfl, rfl, rfl, rfl, rfl, rfl⟩
  | true => exact ⟨rfl, rfl, rfl, rfl, rfl, rfl⟩

/-- Witness for the amended C2: the disconnected render on
`pulseMissingDom`. -/
theorem C2_missing_pulse_partial_render_witness :
    pulseMissingDom.indicatorBtn.isSome ∧ pulseMissingDom.indicatorIcon.isSome ∧
    pulseMissingDom.indicatorText.isSome ∧ pulseMissingDom.pulseRing = none ∧
    ((updateUI false pulseMissingDom).2 = some JsError.typeError ∧
     (updateUI false pulseMissingDom).1.indicatorBtn
       = some (if false then connectedBtnClassName else disconnectedBtnClassName) ∧
     (updateUI false pulseMissingDom).1.indicatorIcon
       = some (if false then "wifi" else "wifi_off") ∧
     (updateUI false pulseMissingDom).1.indicatorText
       = some (if false then "Online" else "Offline") ∧
     (updateUI false pulseMissingDom).1.pulseRing = none ∧
     (updateUI false pulseMissingDom).1.sensorValues = pulseMissingDom.sensorValues) :=
  ⟨by decide, by decide, by decide, rfl,
   C2_missing_pulse_partial_render false pulseMissingDom (by decide) (by decide)
     (by decide) rfl⟩

/-- Claim C3: two clicks in succession return the connection flag to its
starting value, and the DOM they leave behind is exactly the render output
for the starting state on the starting DOM — observably identical to the
render output before the two toggles. -/
theorem C3_toggle_involution (a : App) :
    (handleIndicatorClick (handleIndicatorClick a).1).1.isConnected = a.isConnected ∧
    (handleIndicatorClick (handleIndicatorClick a).1).1.dom
      = (updateUI a.isConnected a.dom).1 := by
  constructor
  · simp [handleIndicatorClick, runRender]
  · simp [handleIndicatorClick, runRender, updateUI_updateUI]

/-- Claim C4: rendering is idempotent — a second `updateUI` call with
unchanged state and unchanged `data-val` attributes leaves exactly the same
DOM and raises exactly the same (absent or thrown) error as the first. -/
theorem C4_render_idempotent (a : App) :
    (runRender (runRender a).1).1.dom = (runRender a).1.dom ∧
    (runRender (runRender a).1).2 = (runRender a).2 := by
  constructor <;> simp [runRender, updateUI_updateUI]

/-- Claim C5: with the four single-element surfaces present, immediately
after construction and the first render (run synchronously when the
document was already loaded, and at the `DOMContentLoaded` notification
otherwise) the flag is Disconnected, the pulse ring is visible, and every
sensor display shows the canonical zero `"0"`. -/
theorem C5_initial_state (loading : Bool) (d : Dom)
    (hb : d.indicatorBtn.isSome) (hi : d.indicatorIcon.isSome)
    (ht : d.indicatorText.isSome) (hp : d.pulseRing.isSome) :
    (constructAndFirstRender loading d).isConnected = false ∧
    (constructAndFirstRender loading d).dom.pulseRing = some pulseVisibleClassName ∧
    ∀ el ∈ (constructAndFirstRender loading d).dom.sensorValues, el.innerText = "0" := by
  rcases d with ⟨btn, icon, txt, pulse, sens⟩
  cases btn with
  | none => exact absurd hb (by simp)
  | some v1 =>
  cases icon with
  | none => exact absurd hi (by simp)
  | some v2 =>
  cases txt with
  | none => exact absurd ht (by simp)
  | some v3 =>
  cases pulse with
  | none => exact absurd hp (by simp)
  | some v4 =>
  cases loading with
  | false => exact ⟨rfl, rfl, offline_innerText sens⟩
  | true => exact ⟨rfl, rfl, offline_innerText sens⟩

/-- Witness for C5: construction on `okDom` with the document already
loaded. -/
theorem C5_initial_state_witness :
    okDom.indicatorBtn.isSome ∧ okDom.indicatorIcon.isSome ∧
    okDom.indicatorText.isSome ∧ okDom.pulseRing.isSome ∧
    ((constructAndFirstRender false okDom).isConnected = false ∧
     (constructAndFirstRender false okDom).dom.pulseRing = some pulseVisibleClassName ∧
     ∀ el ∈ (constructAndFirstRender false okDom).dom.sensorValues, el.innerText = "0") :=
  ⟨by decide, by decide, by decide, by decide,
   C5_initial_state false okDom (by decide) (by decide) (by decide) (by decide)⟩

/-- Claim C6: a click always inverts the connection flag and triggers
exactly one render (the ghost render counter grows by exactly one), in
every current state; with the bound surfaces present the click handler
throws no error. -/
theorem C6_toggle_total (a : App)
    (hb : a.dom.indicatorBtn.isSome) (hi : a.dom.indicatorIcon.isSome)
    (ht : a.dom.indicatorText.isSome) (hp : a.dom.pulseRing.isSome) :
    (handleIndicatorClick a).1.isConnected = !a.isConnected ∧
    (handleIndicatorClick a).1.renderCount = a.renderCount + 1 ∧
    (handleIndicatorClick a).2 = none := by
  refine ⟨rfl, rfl, ?_⟩
  show (updateUI (!a.isConnected) a.dom).2 = none
  exact (updateUI_err_none_iff _ _).mpr ⟨hb, hi, ht, hp⟩

/-- Witness for C6: a click on `okApp`. -/
theorem C6_toggle_total_witness :
    okApp.dom.indicatorBtn.isSome ∧ okApp.dom.indicatorIcon.isSome ∧
    okApp.dom.indicatorText.isSome ∧ okApp.dom.pulseRing.isSome ∧
    ((handleIndicatorClick okApp).1.isConnected = !okApp.isConnected ∧
     (handleIndicatorClick okApp).1.renderCount = okApp.renderCount + 1 ∧
     (handleIndicatorClick okApp).2 = none) :=
  ⟨by decide, by decide, by decide, by decide,
   C6_toggle_total okApp (by decide) (by decide) (by decide) (by decide)⟩

/-- Claim C7: startup schedules exactly one render — it runs synchronously
inside the constructor when the document is already loaded, and otherwise
exactly one render is deferred to the one-shot `DOMContentLoaded`
notification, whose consumption is at most once: a second firing changes
nothing. -/
theorem C7_startup_schedules_one_render (d : Dom) :
    ((construct false d).1.renderCount = 1 ∧
     (construct false d).1.pendingRender = false) ∧
    ((construct true d).1.renderCount = 0 ∧
     (construct true d).1.pendingRender = true) ∧
    (fireDomContentLoaded (construct true d).1).1.renderCount = 1 ∧
    (fireDomContentLoaded (fireDomContentLoaded (construct true d).1).1).1
      = (fireDomContentLoaded (construct true d).1).1 := by
  refine ⟨⟨rfl, rfl⟩, ⟨rfl, rfl⟩, rfl, rfl⟩

/-- Claim C8: the connection flag is mutated only by clicks — after any
sequence of events following construction (clicks, renders, the readiness
notification) the flag equals the parity of the number of clicks, starting
from Disconnected, and no event ever changes a sensor element's static
`data-val` attribute. -/
theorem C8_state_only_from_toggles (loading : Bool) (d : Dom) (ops : List Op) :
    (runOps (construct loading d).1 ops).isConnected
      = (ops.count Op.toggle % 2 == 1) ∧
    (runOps (construct loading d).1 ops).dom.sensorValues.map SensorEl.dataVal
      = d.sensorValues.map SensorEl.dataVal := by
  constructor
  · rw [runOps_isConnected ops, construct_isConnected]
    simp
  · rw [runOps_dataVals ops, construct_dataVals]

/-- Counterexample to claim C9 as stated: constructing with the document
already loaded and only the pulse surface absent throws a `TypeError` out
of the constructor instead of completing with the affected update step
degraded to a no-op. -/
theorem C9_cex_construct_throws :
    (construct false pulseMissingDom).2 = some JsError.typeError := rfl

/-- Claim C9 amended: construction completes without throwing exactly when
the first render is deferred (the document is still loading) or the four
single-element surfaces are all present; an absent or empty sensor-display
collection is always tolerated, and an absent indicator control skips the
click-listener binding (a no-op, not a crash).  But when the document is
already loaded and any of the indicator, icon, label, or pulse surfaces is
absent, the synchronous first render throws a `TypeError` out of the
constructor. -/
theorem C9_construct_degraded (loading : Bool) (d : Dom) :
    ((construct loading d).2 = none ↔
      (loading = true ∨
        (d.indicatorBtn.isSome ∧ d.indicatorIcon.isSome ∧
         d.indicatorText.isSome ∧ d.pulseRing.isSome))) ∧
    (construct loading d).1.listenerAttached = d.indicatorBtn.isSome := by
  cases loading with
  | true => exact ⟨by simp [construct, initApp, setupEventListeners], rfl⟩
  | false =>
    constructor
    · show (updateUI false d).2 = none ↔ _
      rw [updateUI_err_none_iff]
      simp
    · rfl

/-- Counterexample to claim C10 as stated: with a sensor element lacking a
`data-val` attribute, the connected render sets its displayed text to the
empty string — the `innerText` setter coerces the `null` attribute lookup
to `""` — not to the text `"null"`. -/
theorem C10_cex_missing_attr_empty :
    (updateUI true missingAttrDom).1.sensorValues.map (fun el => el.innerText)
      = [""] ∧ ("" : String) ≠ "null" := by
  exact ⟨rfl, by decide⟩

/-- Claim C10 amended: when Connected and a sensor-display element carries
no `data-val` attribute, the render sets that element's displayed text to
the empty string (the `getAttribute` lookup yields `null`, which the
`innerText` setter coerces to `""` per its `[LegacyNullToEmptyString]`
declaration), rather than preserving its previous displayed text, showing
the canonical zero, or showing the text `"null"`. -/
theorem C10_missing_attr_renders_empty (d : Dom)
    (hb : d.indicatorBtn.isSome) (hi : d.indicatorIcon.isSome)
    (ht : d.indicatorText.isSome) (hp : d.pulseRing.isSome)
    (i : Nat) (el : SensorEl)
    (hel : d.sensorValues[i]? = some el) (hattr : el.dataVal = none) :
    (updateUI true d).1.sensorValues[i]?
      = some { dataVal := none, innerText := "" } := by
  rcases d with ⟨btn, icon, txt, pulse, sens⟩
  cases btn with
  | none => exact absurd hb (by simp)
  | some v1 =>
  cases icon with
  | none => exact absurd hi (by simp)
  | some v2 =>
  cases txt with
  | none => exact absurd ht (by simp)
  | some v3 =>
  cases pulse with
  | none => exact absurd hp (by simp)
  | some v4 =>
  show (sens.map setSensorOnline)[i]? = some { dataVal := none, innerText := "" }
  rw [List.getElem?_map]
  rw [hel]
  simp [setSensorOnline, hattr, innerTextOfAttr]

/-- Witness for the amended C10: the connected render on `missingAttrDom`,
whose single sensor element has no `data-val`. -/
theorem C10_missing_attr_renders_empty_witness :
    missingAttrDom.indicatorBtn.isSome ∧ missingAttrDom.indicatorIcon.isSome ∧
    missingAttrDom.indicatorText.isSome ∧ missingAttrDom.pulseRing.isSome ∧
    missingAttrDom.sensorValues[0]?
      = some { dataVal := none, innerText := "prev" } ∧
    ({ dataVal := none, innerText := "prev" } : SensorEl).dataVal = none ∧
    (updateUI true missingAttrDom).1.sensorValues[0]?
      = some { dataVal := none, innerText := "" } :=
  ⟨by decide, by decide, by decide, by decide, by decide, rfl,
   C10_missing_attr_renders_empty missingAttrDom (by decide) (by decide) (by decide)
     (by decide) 0 { dataVal := none, innerText := "prev" } (by decide) rfl⟩

end ACMonitor
